import Mathlib

/-!
# Verification of the Mini Aaron Flight simulation core

Shallow embedding of `src/main.c` (the Mini Aaron Flight game): the obstacle
store, the collision detector, the player physics, the difficulty and progress
model, and the per-frame state machine of the main loop.  Floating point
arithmetic of the C source is modelled over the rationals with the decimal
values of the source literals; `rand()` is modelled by an explicit stream
`ρ : ℕ → ℕ` giving the successive return values of `rand()` within one call
site, with `RAND_MAX` the glibc/emscripten value 2147483647.
-/

namespace MiniFlight

/-- Obstacle record, from `typedef struct { float x,y,w,h,speed; int type; } Obstacle;`. -/
structure Obstacle where
  x : ℚ
  y : ℚ
  w : ℚ
  h : ℚ
  speed : ℚ
  type : ℕ
  deriving DecidableEq, Repr

/-- `static const int W = 960`. -/
def W : ℚ := 960

/-- `static const int H = 540`. -/
def H : ℚ := 540

/-- `static const int GROUND_Y = 460`. -/
def GROUND_Y : ℚ := 460

/-- `static const float KM_TOTAL = 12000.0f`. -/
def KM_TOTAL : ℚ := 12000

/-- `RAND_MAX` of the C library used by the source (glibc/emscripten). -/
def RAND_MAX : ℕ := 2147483647

/-- `const float gravity = 0.38f`. -/
def gravity : ℚ := 38/100

/-- `const float thrust = 0.8f`. -/
def thrust : ℚ := 8/10

/-- `const float maxVy = 7.0f`. -/
def maxVy : ℚ := 7

/-- `float baseSpeed = 4.2f`. -/
def baseSpeed : ℚ := 42/10

/-- The player's fixed horizontal position, `px = W*0.22f`. -/
def px : ℚ := W * (22/100)

/-- The obstacle built by `addObstacle` from the random stream `ρ` (the body of
`addObstacle` below the capacity check).  The C code consumes `rand()` calls in
source order; `ρ 0` is the draw for the kind discriminator
`r = (float)rand()/RAND_MAX`, and the later draws follow the order of the
chosen branch, ending with the x-jitter draw. -/
def spawnOb (speed : ℚ) (ρ : ℕ → ℕ) : Obstacle :=
  let r : ℚ := (ρ 0 : ℚ) / (RAND_MAX : ℚ)
  if r < 55/100 then
    { type := 0, w := 90 + (ρ 1 % 80 : ℕ), h := 50 + (ρ 2 % 30 : ℕ),
      y := 60 + (ρ 3 % 240 : ℕ), speed := speed * 1,
      x := W + 40 + (ρ 4 % 120 : ℕ) }
  else if r < 85/100 then
    { type := 1, w := 44, h := 28, y := 100 + (ρ 1 % 260 : ℕ),
      speed := speed * (135/100), x := W + 40 + (ρ 2 % 120 : ℕ) }
  else
    let hh : ℚ := 120 + (ρ 1 % 120 : ℕ)
    let top : Bool := ρ 2 % 2 == 0
    { type := 2, w := 50, h := hh,
      y := if top then 40 else GROUND_Y - hh,
      speed := speed * (11/10), x := W + 40 + (ρ 3 % 120 : ℕ) }

/-- `addObstacle`: no-op at capacity 128, otherwise appends the spawned obstacle
(`obs[obsCount++] = o`). -/
def addObstacle (speed : ℚ) (ρ : ℕ → ℕ) (obs : List Obstacle) : List Obstacle :=
  if 128 ≤ obs.length then obs else obs ++ [spawnOb speed ρ]

/-- The collision predicate `hit`: shrinks the player's visual box
`(ax, ay, aw, ah)` by the factor 0.8 — note the source computes the offset
`aw*(1-shrink)/2` and SUBTRACTS it from `ax`/`ay` — then tests strict
axis-aligned overlap against the obstacle box. -/
def hit (ax ay aw ah : ℚ) (b : Obstacle) : Bool :=
  let shrink : ℚ := 8/10
  let aox := ax - aw * (1 - shrink) / 2
  let aoy := ay - ah * (1 - shrink) / 2
  let aow := aw * shrink
  let aoh := ah * shrink
  decide (aox < b.x + b.w) && decide (b.x < aox + aow) &&
    decide (aoy < b.y + b.h) && decide (b.y < aoy + aoh)

/-- Collision predicate following the spec's words for claim C1 (refinement
comparison only): the player hitbox is 0.8 of the visual box CENTERED within
it, so its left edge is `ax + 0.1*aw` and its top edge `ay + 0.1*ah`; the
obstacle is never shrunk and the overlap test is strict. -/
def hitSpecCentered (ax ay aw ah : ℚ) (b : Obstacle) : Bool :=
  let shrink : ℚ := 8/10
  let aox := ax + aw * (1 - shrink) / 2
  let aoy := ay + ah * (1 - shrink) / 2
  let aow := aw * shrink
  let aoh := ah * shrink
  decide (aox < b.x + b.w) && decide (b.x < aox + aow) &&
    decide (aoy < b.y + b.h) && decide (b.y < aoy + aoh)

/-- The mutable session state of `main`'s loop (the player, difficulty,
progress, spawn bookkeeping, the two end-of-session flags and the obstacle
store). -/
structure GameState where
  py : ℚ
  vy : ℚ
  holding : Bool
  kmLeft : ℚ
  difficulty : ℚ
  spawnMs : ℚ
  spawnTimer : ℚ
  gameOver : Bool
  victory : Bool
  obs : List Obstacle
  deriving Repr

/-- The initial session state (lines 81–88 of `main.c`). -/
def initState : GameState :=
  { py := H * (1/2), vy := 0, holding := false, kmLeft := KM_TOTAL,
    difficulty := 1, spawnMs := 1100, spawnTimer := 0,
    gameOver := false, victory := false, obs := [] }

/-- The physics step in 60fps-units: `dt = fminf(48.0f, dtms) / 16.6667f`. -/
def dtOf (dtms : ℚ) : ℚ := min 48 dtms / (166667/10000)

/-- Velocity update: gravity, optional thrust, then the two sequential clamps
to `[-maxVy, maxVy]`. -/
def velStep (vy : ℚ) (holding : Bool) (dt : ℚ) : ℚ :=
  let v1 := vy + gravity * dt
  let v2 := if holding then v1 - thrust * dt else v1
  let v3 := if maxVy < v2 then maxVy else v2
  if v3 < -maxVy then -maxVy else v3

/-- Position update `py += vy * 3.2f` followed by the two sequential clamps to
`[60, GROUND_Y - 20]`. -/
def posStep (py v : ℚ) : ℚ :=
  let p1 := py + v * (32/10)
  let p2 := if p1 < 60 then 60 else p1
  if GROUND_Y - 20 < p2 then GROUND_Y - 20 else p2

/-- `spawnMs = fmaxf(580.0f, 1100.0f - (difficulty-1.0f)*160.0f)`. -/
def spawnMsOf (difficulty : ℚ) : ℚ := max 580 (1100 - (difficulty - 1) * 160)

/-- `worldSpeed = baseSpeed * (1.0f + (difficulty-1.0f)*0.35f)`. -/
def worldSpeedOf (difficulty : ℚ) : ℚ := baseSpeed * (1 + (difficulty - 1) * (35/100))

/-- Advance every obstacle left by `speed * 3.2f`, then cull those whose right
edge is at or left of `-10` (the source keeps `obs[i].x + obs[i].w > -10`,
compacting in order). -/
def moveCull (obs : List Obstacle) : List Obstacle :=
  (obs.map (fun o => { o with x := o.x - o.speed * (32/10) })).filter
    (fun o => decide (-10 < o.x + o.w))

/-- The per-frame collision scan `hit(px-30, py-18, 60, 36, &obs[i])` over the
store (the source breaks at the first hit; `List.any` has the same value). -/
def anyHit (py : ℚ) (obs : List Obstacle) : Bool :=
  obs.any (fun o => hit (px - 30) (py - 18) 60 36 o)

/-- The eased journey speed: `prog = (KM_TOTAL - kmLeft)/KM_TOTAL`,
`t = prog*prog*(3 - 2*prog)`, `kmPerSec = 120 + (160 - 120)*t`. -/
def kmPerSecOf (kmLeft : ℚ) : ℚ :=
  let prog := (KM_TOTAL - kmLeft) / KM_TOTAL
  let t := prog * prog * (3 - 2 * prog)
  120 + (160 - 120) * t

/-- One active frame of the simulation (the body of
`if (!gameOver && !victory) { ... }`, lines 117–146), given the raw elapsed
milliseconds `dtms` and the frame's random stream `ρ`. -/
def tickActive (s : GameState) (dtms : ℚ) (ρ : ℕ → ℕ) : GameState :=
  let dt := dtOf dtms
  let dts := dtms / 1000
  let difficulty := s.difficulty + (45/100000) * dtms
  let spawnMs := spawnMsOf difficulty
  let vy := velStep s.vy s.holding dt
  let py := posStep s.py vy
  let timer0 := s.spawnTimer + dtms
  let spawnTimer := if spawnMs ≤ timer0 then (0 : ℚ) else timer0
  let obs1 := if spawnMs ≤ timer0 then addObstacle (worldSpeedOf difficulty) ρ s.obs else s.obs
  let obs2 := moveCull obs1
  let gameOver := anyHit py obs2
  let kmLeft1 := s.kmLeft - kmPerSecOf s.kmLeft * dts
  let victory := decide (kmLeft1 ≤ 0)
  let kmLeft := if kmLeft1 ≤ 0 then (0 : ℚ) else kmLeft1
  { s with
    py := py,
    vy := vy,
    difficulty := difficulty,
    spawnMs := spawnMs,
    spawnTimer := spawnTimer,
    obs := obs2,
    gameOver := gameOver,
    victory := victory,
    kmLeft := kmLeft }

/-- One frame of the simulation: a no-op on the session data when the session
has ended (`gameOver || victory`), otherwise the active frame body. -/
def tick (s : GameState) (dtms : ℚ) (ρ : ℕ → ℕ) : GameState :=
  if s.gameOver || s.victory then s else tickActive s dtms ρ

/-- The discrete input events the loop reacts to (SPACE/UP/mouse press and
release toggle `holding`; RETURN is the restart key). -/
inductive Event where
  | thrustDown
  | thrustUp
  | restartKey
  deriving DecidableEq, Repr

/-- Event handling of the SDL poll loop (lines 94–109): thrust edges set and
clear `holding`; RETURN restarts only when `gameOver || victory`, resetting
the session to its initial values. -/
def handleEvent (s : GameState) : Event → GameState
  | .thrustDown => { s with holding := true }
  | .thrustUp => { s with holding := false }
  | .restartKey =>
      if s.gameOver || s.victory then
        { s with
          obs := [],
          py := H * (1/2),
          vy := 0,
          kmLeft := KM_TOTAL,
          difficulty := 1,
          spawnMs := 1100,
          spawnTimer := 0,
          victory := false,
          gameOver := false }
      else s

/-! ## Helper lemmas shared by the claim theorems -/

/-- A frame after the session ends (either flag set) changes nothing. -/
theorem tick_frozen (s : GameState) (dtms : ℚ) (ρ : ℕ → ℕ)
    (h : s.gameOver = true ∨ s.victory = true) : tick s dtms ρ = s := by
  unfold tick
  rcases h with h | h <;> simp [h]

/-- A frame from an Active session runs the active frame body. -/
theorem tick_active_eq (s : GameState) (dtms : ℚ) (ρ : ℕ → ℕ)
    (hg : s.gameOver = false) (hv : s.victory = false) :
    tick s dtms ρ = tickActive s dtms ρ := by
  unfold tick
  simp [hg, hv]

theorem tickActive_vy (s : GameState) (dtms : ℚ) (ρ : ℕ → ℕ) :
    (tickActive s dtms ρ).vy = velStep s.vy s.holding (dtOf dtms) := rfl

theorem tickActive_py (s : GameState) (dtms : ℚ) (ρ : ℕ → ℕ) :
    (tickActive s dtms ρ).py = posStep s.py (velStep s.vy s.holding (dtOf dtms)) := rfl

theorem tickActive_difficulty (s : GameState) (dtms : ℚ) (ρ : ℕ → ℕ) :
    (tickActive s dtms ρ).difficulty = s.difficulty + (45/100000) * dtms := rfl

theorem tickActive_spawnMs (s : GameState) (dtms : ℚ) (ρ : ℕ → ℕ) :
    (tickActive s dtms ρ).spawnMs = spawnMsOf (s.difficulty + (45/100000) * dtms) := rfl

theorem tickActive_spawnTimer (s : GameState) (dtms : ℚ) (ρ : ℕ → ℕ) :
    (tickActive s dtms ρ).spawnTimer =
      if spawnMsOf (s.difficulty + (45/100000) * dtms) ≤ s.spawnTimer + dtms then 0
      else s.spawnTimer + dtms := rfl

theorem tickActive_obs (s : GameState) (dtms : ℚ) (ρ : ℕ → ℕ) :
    (tickActive s dtms ρ).obs =
      moveCull
        (if spawnMsOf (s.difficulty + (45/100000) * dtms) ≤ s.spawnTimer + dtms then
          addObstacle (worldSpeedOf (s.difficulty + (45/100000) * dtms)) ρ s.obs
        else s.obs) := rfl

theorem tickActive_victory (s : GameState) (dtms : ℚ) (ρ : ℕ → ℕ) :
    (tickActive s dtms ρ).victory =
      decide (s.kmLeft - kmPerSecOf s.kmLeft * (dtms / 1000) ≤ 0) := rfl

theorem tickActive_kmLeft (s : GameState) (dtms : ℚ) (ρ : ℕ → ℕ) :
    (tickActive s dtms ρ).kmLeft =
      if s.kmLeft - kmPerSecOf s.kmLeft * (dtms / 1000) ≤ 0 then 0
      else s.kmLeft - kmPerSecOf s.kmLeft * (dtms / 1000) := rfl

/-- The two sequential position clamps keep the player inside `[60, 440]`
(`GROUND_Y - 20 = 440`). -/
theorem posStep_bounds (py v : ℚ) : 60 ≤ posStep py v ∧ posStep py v ≤ 440 := by
  unfold posStep GROUND_Y
  norm_num
  constructor <;> split_ifs <;> linarith

/-- Moving and culling never grows the store. -/
theorem moveCull_length_le (l : List Obstacle) : (moveCull l).length ≤ l.length := by
  unfold moveCull
  exact le_trans (List.length_filter_le _ _) (le_of_eq (List.length_map _ _))

/-- `addObstacle` appends at most one obstacle. -/
theorem addObstacle_length_le (speed : ℚ) (ρ : ℕ → ℕ) (obs : List Obstacle) :
    (addObstacle speed ρ obs).length ≤ obs.length + 1 := by
  unfold addObstacle
  split_ifs <;> simp

/-! ## Claim theorems -/

/-- C1: the claim says the shrunk player hitbox is centered in the visual box
(left edge `ax + 0.1*aw`, top edge `ay + 0.1*ah`).  The source's `hit` instead
SUBTRACTS the centering offset (`aox = ax - (aw*(1-shrink)/2)`), shifting the
hitbox up-left.  At the visual box `(0,0,10,10)` and the obstacle
`(x,y,w,h) = (8,1,1,1)`, the centered hitbox `[1,9]×[1,9]` strictly overlaps
the obstacle, but the code's box `[-1,7]×[-1,7]` does not: `hit` returns
`false` where the claimed predicate returns `true`. -/
theorem C1_shrink_not_centered :
    hit 0 0 10 10 { x := 8, y := 1, w := 1, h := 1, speed := 0, type := 0 } = false ∧
    hitSpecCentered 0 0 10 10 { x := 8, y := 1, w := 1, h := 1, speed := 0, type := 0 } = true := by
  constructor
  · norm_num [hit]
  · norm_num [hitSpecCentered]

/-- C2, counterexample: the difficulty accumulator increment is NOT computed
from the clamped elapsed time: a 96ms raw frame advances `difficulty` by
`0.00045*96`, not by the claimed `0.00045*48` of a 48ms frame. -/
theorem C2_raw_elapsed_drives_difficulty :
    (tick initState 96 (fun _ => 0)).difficulty ≠
      (tick initState 48 (fun _ => 0)).difficulty := by
  have h1 : (tick initState 96 (fun _ => 0)).difficulty = 1 + 45/100000 * 96 := rfl
  have h2 : (tick initState 48 (fun _ => 0)).difficulty = 1 + 45/100000 * 48 := rfl
  rw [h1, h2]
  norm_num

/-- C2, amended: only the physics step `dt = fminf(48, dtms)/16.6667` is
computed from the clamped elapsed time, so the player's velocity and position
updates of a raw frame longer than 48ms are exactly those of a 48ms frame; the
difficulty increment, the spawn-timer advance and the remaining-distance decay
use the raw elapsed milliseconds. -/
theorem C2_clamped_dt_physics (s : GameState) (dtms : ℚ) (ρ : ℕ → ℕ)
    (h : 48 ≤ dtms) :
    (tick s dtms ρ).vy = (tick s 48 ρ).vy ∧ (tick s dtms ρ).py = (tick s 48 ρ).py := by
  have hdt : dtOf dtms = dtOf 48 := by
    unfold dtOf
    rw [min_eq_left h, min_eq_left le_rfl]
  cases hg : s.gameOver
  · cases hv : s.victory
    · rw [tick_active_eq s dtms ρ hg hv, tick_active_eq s 48 ρ hg hv,
        tickActive_vy, tickActive_vy, tickActive_py, tickActive_py, hdt]
      exact ⟨rfl, rfl⟩
    · rw [tick_frozen s dtms ρ (Or.inr hv), tick_frozen s 48 ρ (Or.inr hv)]
      exact ⟨rfl, rfl⟩
  · rw [tick_frozen s dtms ρ (Or.inl hg), tick_frozen s 48 ρ (Or.inl hg)]
    exact ⟨rfl, rfl⟩

/-- C2, witness: the amended theorem applied at a concrete 100ms raw frame. -/
theorem C2_clamped_dt_physics_w :
    (48 : ℚ) ≤ 100 ∧
      (tick initState 100 (fun _ => 0)).vy = (tick initState 48 (fun _ => 0)).vy :=
  ⟨by norm_num, (C2_clamped_dt_physics initState 100 (fun _ => 0) (by norm_num)).1⟩

/-- C3, counterexample: a single Active frame in which a collision occurs and
the remaining distance also runs out ends with BOTH the Crashed and Completed
flags set, because the source keeps two independent booleans and the progress
update still runs after `gameOver` was set in the same pass. -/
theorem C3_both_flags_in_one_tick :
    (tick { initState with kmLeft := 1, obs := [⟨100, 200, 200, 200, 42/10, 0⟩] }
        48 (fun _ => 0)).gameOver = true ∧
    (tick { initState with kmLeft := 1, obs := [⟨100, 200, 200, 200, 42/10, 0⟩] }
        48 (fun _ => 0)).victory = true := by
  norm_num [tick, tickActive, initState, dtOf, velStep, posStep, spawnMsOf, worldSpeedOf,
    moveCull, anyHit, hit, kmPerSecOf, addObstacle, spawnOb, gravity, thrust, maxVy, baseSpeed,
    px, W, H, GROUND_Y, KM_TOTAL, min_def, max_def]

/-- C3, amended: the session keeps two independent end flags rather than one
exclusive state.  A frame from a finished session (either flag set) changes
nothing, so the only way the flags change once set is the restart action,
which always leaves both flags cleared (back to Active); and in an Active
frame the Completed flag is decided solely by the remaining-distance decay,
independently of a collision in the same frame — so a frame in which both a
collision and exhaustion occur ends with both flags set. -/
theorem C3_flags_amended (s : GameState) (dtms : ℚ) (ρ : ℕ → ℕ) :
    (s.gameOver = true ∨ s.victory = true → tick s dtms ρ = s) ∧
    (s.gameOver = false → s.victory = false →
      ((tick s dtms ρ).victory = true ↔
        s.kmLeft - kmPerSecOf s.kmLeft * (dtms / 1000) ≤ 0)) ∧
    (handleEvent s .restartKey).gameOver = false ∧
    (handleEvent s .restartKey).victory = false := by
  refine ⟨tick_frozen s dtms ρ, ?_, ?_⟩
  · intro hg hv
    rw [tick_active_eq s dtms ρ hg hv, tickActive_victory]
    exact decide_eq_true_iff
  · unfold handleEvent
    cases hg : s.gameOver <;> cases hv : s.victory <;> simp [hg, hv]

/-- C3, witness: the amended theorem applied at the initial state with a 0ms
frame. -/
theorem C3_flags_amended_w :
    (tick initState 0 (fun _ => 0)).victory = true ↔
      initState.kmLeft - kmPerSecOf initState.kmLeft * (0 / 1000) ≤ 0 :=
  (C3_flags_amended initState 0 (fun _ => 0)).2.1 rfl rfl

/-- A drawn `rand()%k` value, cast to ℚ, lies in `[0, k)`. -/
theorem cast_mod_bounds (n k : ℕ) (hk : 0 < k) :
    (0 : ℚ) ≤ ((n % k : ℕ) : ℚ) ∧ ((n % k : ℕ) : ℚ) < (k : ℚ) :=
  ⟨Nat.cast_nonneg _, by exact_mod_cast Nat.mod_lt n hk⟩

/-- C4, counterexample: two random streams that agree on the kind draw (both
select Bird) but differ on every later draw produce obstacles of the SAME size
44×28 — the Bird's width and height are compile-time constants, so its size
does not vary with the random draw (and likewise StormColumn's width is the
constant 50). -/
theorem C4_bird_size_constant :
    (addObstacle (42/10) (fun n => if n = 0 then 1500000000 else 0) []).map
      (fun o => (o.type, o.w, o.h)) = [(1, 44, 28)] ∧
    (addObstacle (42/10) (fun n => if n = 0 then 1500000000 else 7) []).map
      (fun o => (o.type, o.w, o.h)) = [(1, 44, 28)] ∧
    (fun n => if n = 0 then 1500000000 else (0:ℕ)) 1 ≠
      (fun n => if n = 0 then 1500000000 else (7:ℕ)) 1 := by
  refine ⟨?_, ?_, by norm_num⟩ <;>
    norm_num [addObstacle, spawnOb, RAND_MAX, W]

/-- C4, amended: `Spawn` appends one obstacle (below capacity) whose shape
depends on the kind draw `r = ρ0/RAND_MAX`: a Cloud (`r < 0.55`) has
randomized width `90 + rand%80 ∈ [90,170)`, height `50 + rand%30 ∈ [50,80)`
and band placement `y = 60 + rand%240 ∈ [60,300)`; a Bird
(`0.55 ≤ r < 0.85`) has FIXED size 44×28 and band placement
`y = 100 + rand%260 ∈ [100,360)`; a StormColumn (`r ≥ 0.85`) has FIXED width
50, randomized height `120 + rand%120 ∈ [120,240)`, and is anchored to the
top edge (`y = 40`) or the bottom edge (`y = GROUND_Y - h`) by a uniform
parity draw. -/
theorem C4_spawn_policy (speed : ℚ) (ρ : ℕ → ℕ) (obs : List Obstacle)
    (hcap : obs.length < 128) :
    addObstacle speed ρ obs = obs ++ [spawnOb speed ρ] ∧
    ((ρ 0 : ℚ) / (RAND_MAX : ℚ) < 55/100 →
      (spawnOb speed ρ).type = 0 ∧
      (spawnOb speed ρ).w = 90 + ((ρ 1 % 80 : ℕ) : ℚ) ∧
      (spawnOb speed ρ).h = 50 + ((ρ 2 % 30 : ℕ) : ℚ) ∧
      90 ≤ (spawnOb speed ρ).w ∧ (spawnOb speed ρ).w < 170 ∧
      50 ≤ (spawnOb speed ρ).h ∧ (spawnOb speed ρ).h < 80 ∧
      60 ≤ (spawnOb speed ρ).y ∧ (spawnOb speed ρ).y < 300) ∧
    (¬ (ρ 0 : ℚ) / (RAND_MAX : ℚ) < 55/100 → (ρ 0 : ℚ) / (RAND_MAX : ℚ) < 85/100 →
      (spawnOb speed ρ).type = 1 ∧ (spawnOb speed ρ).w = 44 ∧ (spawnOb speed ρ).h = 28 ∧
      100 ≤ (spawnOb speed ρ).y ∧ (spawnOb speed ρ).y < 360) ∧
    (¬ (ρ 0 : ℚ) / (RAND_MAX : ℚ) < 85/100 →
      (spawnOb speed ρ).type = 2 ∧ (spawnOb speed ρ).w = 50 ∧
      (spawnOb speed ρ).h = 120 + ((ρ 1 % 120 : ℕ) : ℚ) ∧
      120 ≤ (spawnOb speed ρ).h ∧ (spawnOb speed ρ).h < 240 ∧
      (ρ 2 % 2 = 0 → (spawnOb speed ρ).y = 40) ∧
      (ρ 2 % 2 ≠ 0 → (spawnOb speed ρ).y = GROUND_Y - (spawnOb speed ρ).h)) := by
  refine ⟨?_, ?_, ?_, ?_⟩
  · unfold addObstacle
    rw [if_neg (by omega)]
  · intro h1
    have e : spawnOb speed ρ =
        { type := 0, w := 90 + ((ρ 1 % 80 : ℕ) : ℚ), h := 50 + ((ρ 2 % 30 : ℕ) : ℚ),
          y := 60 + ((ρ 3 % 240 : ℕ) : ℚ), speed := speed * 1,
          x := W + 40 + ((ρ 4 % 120 : ℕ) : ℚ) } := by
      simp only [spawnOb]
      rw [if_pos h1]
    obtain ⟨l1, u1⟩ := cast_mod_bounds (ρ 1) 80 (by norm_num)
    obtain ⟨l2, u2⟩ := cast_mod_bounds (ρ 2) 30 (by norm_num)
    obtain ⟨l3, u3⟩ := cast_mod_bounds (ρ 3) 240 (by norm_num)
    push_cast at u1 u2 u3
    rw [e]
    exact ⟨rfl, rfl, rfl,
      by show (90:ℚ) ≤ 90 + ((ρ 1 % 80 : ℕ) : ℚ); linarith,
      by show (90:ℚ) + ((ρ 1 % 80 : ℕ) : ℚ) < 170; linarith,
      by show (50:ℚ) ≤ 50 + ((ρ 2 % 30 : ℕ) : ℚ); linarith,
      by show (50:ℚ) + ((ρ 2 % 30 : ℕ) : ℚ) < 80; linarith,
      by show (60:ℚ) ≤ 60 + ((ρ 3 % 240 : ℕ) : ℚ); linarith,
      by show (60:ℚ) + ((ρ 3 % 240 : ℕ) : ℚ) < 300; linarith⟩
  · intro h1 h2
    have e : spawnOb speed ρ =
        { type := 1, w := 44, h := 28, y := 100 + ((ρ 1 % 260 : ℕ) : ℚ),
          speed := speed * (135/100), x := W + 40 + ((ρ 2 % 120 : ℕ) : ℚ) } := by
      simp only [spawnOb]
      rw [if_neg h1, if_pos h2]
    obtain ⟨l1, u1⟩ := cast_mod_bounds (ρ 1) 260 (by norm_num)
    push_cast at u1
    rw [e]
    exact ⟨rfl, rfl, rfl,
      by show (100:ℚ) ≤ 100 + ((ρ 1 % 260 : ℕ) : ℚ); linarith,
      by show (100:ℚ) + ((ρ 1 % 260 : ℕ) : ℚ) < 360; linarith⟩
  · intro h2
    have h1 : ¬ (ρ 0 : ℚ) / (RAND_MAX : ℚ) < 55/100 := by
      push_neg at h2 ⊢
      linarith
    have e : spawnOb speed ρ =
        { type := 2, w := 50, h := 120 + ((ρ 1 % 120 : ℕ) : ℚ),
          y := if (ρ 2 % 2 == 0) = true then 40 else GROUND_Y - (120 + ((ρ 1 % 120 : ℕ) : ℚ)),
          speed := speed * (11/10), x := W + 40 + ((ρ 3 % 120 : ℕ) : ℚ) } := by
      simp only [spawnOb]
      rw [if_neg h1, if_neg h2]
    obtain ⟨l1, u1⟩ := cast_mod_bounds (ρ 1) 120 (by norm_num)
    push_cast at u1
    rw [e]
    refine ⟨rfl, rfl, rfl,
      by show (120:ℚ) ≤ 120 + ((ρ 1 % 120 : ℕ) : ℚ); linarith,
      by show (120:ℚ) + ((ρ 1 % 120 : ℕ) : ℚ) < 240; linarith, ?_, ?_⟩
    · intro hz
      show (if (ρ 2 % 2 == 0) = true then (40:ℚ)
        else GROUND_Y - (120 + ((ρ 1 % 120 : ℕ) : ℚ))) = 40
      rw [if_pos (by simp [hz])]
    · intro hz
      show (if (ρ 2 % 2 == 0) = true then (40:ℚ)
        else GROUND_Y - (120 + ((ρ 1 % 120 : ℕ) : ℚ))) = GROUND_Y - (120 + ((ρ 1 % 120 : ℕ) : ℚ))
      rw [if_neg (by simp [hz])]

/-- C4, witness: below capacity, `Spawn` really appends the drawn obstacle. -/
theorem C4_spawn_policy_w :
    addObstacle (42/10) (fun _ => 0) [] = [] ++ [spawnOb (42/10) (fun _ => 0)] :=
  (C4_spawn_policy (42/10) (fun _ => 0) [] (by norm_num)).1

/-- C5: a frame from a state whose altitude is inside `[60, 440]` ends inside
`[60, 440]` (an active frame lands there unconditionally, by the position
clamps; a frozen frame changes nothing) — and the position clamp leaves the
velocity exactly the value computed by the velocity update, and the position
exactly the clamp of the integrated position.  The initial altitude
`H*0.5 = 270` is inside the band, so every reachable frame-end state is. -/
theorem C5_altitude_band (s : GameState) (dtms : ℚ) (ρ : ℕ → ℕ)
    (h1 : 60 ≤ s.py) (h2 : s.py ≤ 440) :
    (60 ≤ (tick s dtms ρ).py ∧ (tick s dtms ρ).py ≤ 440) ∧
    (s.gameOver = false → s.victory = false →
      (tick s dtms ρ).vy = velStep s.vy s.holding (dtOf dtms) ∧
      (tick s dtms ρ).py = posStep s.py (velStep s.vy s.holding (dtOf dtms))) ∧
    60 ≤ initState.py ∧ initState.py ≤ 440 := by
  refine ⟨?_, ?_, by norm_num [initState, H], by norm_num [initState, H]⟩
  · cases hg : s.gameOver
    · cases hv : s.victory
      · rw [tick_active_eq s dtms ρ hg hv, tickActive_py]
        exact posStep_bounds _ _
      · rw [tick_frozen s dtms ρ (Or.inr hv)]
        exact ⟨h1, h2⟩
    · rw [tick_frozen s dtms ρ (Or.inl hg)]
      exact ⟨h1, h2⟩
  · intro hg hv
    rw [tick_active_eq s dtms ρ hg hv, tickActive_vy, tickActive_py]
    exact ⟨rfl, rfl⟩

/-- C5, witness: the theorem applied at the initial state with a 0ms frame. -/
theorem C5_altitude_band_w :
    60 ≤ (tick initState 0 (fun _ => 0)).py ∧ (tick initState 0 (fun _ => 0)).py ≤ 440 :=
  (C5_altitude_band initState 0 (fun _ => 0)
    (by norm_num [initState, H]) (by norm_num [initState, H])).1

/-- C6: the store never exceeds the capacity 128 — `addObstacle` at capacity
returns the store unchanged (same list, hence same count and contents, and no
error: it is a total function), below capacity it keeps the count within
bound, and a whole frame preserves the bound. -/
theorem C6_capacity (speed : ℚ) (ρ : ℕ → ℕ) (obs : List Obstacle)
    (s : GameState) (dtms : ℚ) :
    (128 ≤ obs.length → addObstacle speed ρ obs = obs) ∧
    (obs.length ≤ 128 → (addObstacle speed ρ obs).length ≤ 128) ∧
    (s.obs.length ≤ 128 → (tick s dtms ρ).obs.length ≤ 128) := by
  have hadd : obs.length ≤ 128 → (addObstacle speed ρ obs).length ≤ 128 := by
    intro h
    unfold addObstacle
    split_ifs with hf
    · exact h
    · simp only [List.length_append, List.length_singleton]
      omega
  refine ⟨?_, hadd, ?_⟩
  · intro h
    unfold addObstacle
    rw [if_pos h]
  · intro h
    cases hg : s.gameOver
    · cases hv : s.victory
      · rw [tick_active_eq s dtms ρ hg hv, tickActive_obs]
        refine le_trans (moveCull_length_le _) ?_
        split_ifs with hf
        · -- same bound for the spawning frame, over the same store
          unfold addObstacle
          split_ifs with hc
          · exact h
          · simp only [List.length_append, List.length_singleton]
            omega
        · exact h
      · rw [tick_frozen s dtms ρ (Or.inr hv)]
        exact h
    · rw [tick_frozen s dtms ρ (Or.inl hg)]
      exact h

/-- C6, witness: the theorem applied at a full concrete store of 128 equal
obstacles and at the initial state. -/
theorem C6_capacity_w :
    addObstacle (42/10) (fun _ => 0) (List.replicate 128 ⟨100, 100, 10, 10, 1, 0⟩) =
      List.replicate 128 ⟨100, 100, 10, 10, 1, 0⟩ ∧
    (tick initState 0 (fun _ => 0)).obs.length ≤ 128 :=
  ⟨(C6_capacity (42/10) (fun _ => 0) (List.replicate 128 ⟨100, 100, 10, 10, 1, 0⟩)
      initState 0).1 (by simp),
   (C6_capacity (42/10) (fun _ => 0) [] initState 0).2.2 (by simp [initState])⟩

/-- C7: in an Active frame with non-negative elapsed time, the spawn interval
is recomputed as `max(580, 1100 - (difficulty-1)*160)` from the updated
difficulty accumulator, is monotonically non-increasing from its previous
value (difficulty only grows), never falls below the floor 580, and its
initial value 1100 is the value of the formula at the initial difficulty 1. -/
theorem C7_spawn_interval (s : GameState) (dtms : ℚ) (ρ : ℕ → ℕ)
    (hg : s.gameOver = false) (hv : s.victory = false) (hd : 0 ≤ dtms)
    (hs : s.spawnMs = spawnMsOf s.difficulty) :
    (tick s dtms ρ).spawnMs = spawnMsOf ((tick s dtms ρ).difficulty) ∧
    (tick s dtms ρ).spawnMs ≤ s.spawnMs ∧
    580 ≤ (tick s dtms ρ).spawnMs ∧
    initState.spawnMs = spawnMsOf initState.difficulty := by
  rw [tick_active_eq s dtms ρ hg hv, tickActive_spawnMs, tickActive_difficulty]
  have hdd : s.difficulty ≤ s.difficulty + 45/100000 * dtms := by
    have := mul_nonneg (by norm_num : (0:ℚ) ≤ 45/100000) hd
    linarith
  refine ⟨rfl, ?_, le_max_left _ _, ?_⟩
  · rw [hs]
    unfold spawnMsOf
    exact max_le_max le_rfl (by linarith)
  · show (1100 : ℚ) = spawnMsOf 1
    unfold spawnMsOf
    norm_num

/-- C7, witness: the theorem applied at the initial state with a 0ms frame. -/
theorem C7_spawn_interval_w :
    580 ≤ (tick initState 0 (fun _ => 0)).spawnMs :=
  (C7_spawn_interval initState 0 (fun _ => 0) rfl rfl le_rfl
    (by show (1100 : ℚ) = spawnMsOf 1; unfold spawnMsOf; norm_num)).2.2.1

/-- C8: the restart key, from a Crashed or Completed session, resets the
remaining distance to `KM_TOTAL = 12000`, empties the obstacle store, returns
the player to the initial position `initState.py` with zero velocity, resets
difficulty, spawn interval and spawn timer to their initial values and clears
both end flags (back to Active); from an Active session it changes nothing. -/
theorem C8_restart_resets (s : GameState) :
    (s.gameOver = true ∨ s.victory = true →
      handleEvent s .restartKey =
        { s with
          obs := [],
          py := initState.py,
          vy := initState.vy,
          kmLeft := initState.kmLeft,
          difficulty := initState.difficulty,
          spawnMs := initState.spawnMs,
          spawnTimer := initState.spawnTimer,
          victory := false,
          gameOver := false }) ∧
    (s.gameOver = false → s.victory = false → handleEvent s .restartKey = s) := by
  constructor
  · intro h
    unfold handleEvent
    rcases h with h | h <;> simp [h, initState]
  · intro hg hv
    unfold handleEvent
    simp [hg, hv]

/-- C8, witness: restarting a concrete crashed session yields exactly the
initial session state. -/
theorem C8_restart_resets_w :
    handleEvent { initState with gameOver := true } .restartKey = initState := by
  rw [(C8_restart_resets { initState with gameOver := true }).1 (Or.inl rfl)]
  rfl

/-- C9: in an Active frame with non-negative elapsed time and remaining
distance in `[0, KM_TOTAL]`, the progress fraction `(TOTAL - remaining)/TOTAL`
does not decrease, and if the frame sets the Completed flag the remaining
distance is clamped to exactly 0, making the fraction exactly 1. -/
theorem C9_progress (s : GameState) (dtms : ℚ) (ρ : ℕ → ℕ)
    (hg : s.gameOver = false) (hv : s.victory = false) (hd : 0 ≤ dtms)
    (h0 : 0 ≤ s.kmLeft) (h1 : s.kmLeft ≤ KM_TOTAL) :
    (KM_TOTAL - s.kmLeft) / KM_TOTAL ≤ (KM_TOTAL - (tick s dtms ρ).kmLeft) / KM_TOTAL ∧
    ((tick s dtms ρ).victory = true →
      (tick s dtms ρ).kmLeft = 0 ∧
      (KM_TOTAL - (tick s dtms ρ).kmLeft) / KM_TOTAL = 1) := by
  rw [tick_active_eq s dtms ρ hg hv, tickActive_kmLeft, tickActive_victory]
  have hTot : (0:ℚ) < KM_TOTAL := by unfold KM_TOTAL; norm_num
  have hks : 0 ≤ kmPerSecOf s.kmLeft := by
    unfold kmPerSecOf
    have hp0 : 0 ≤ (KM_TOTAL - s.kmLeft) / KM_TOTAL := by
      apply div_nonneg _ (le_of_lt hTot)
      linarith
    have hp1 : (KM_TOTAL - s.kmLeft) / KM_TOTAL ≤ 1 := by
      rw [div_le_one hTot]
      linarith
    have ht : 0 ≤ (KM_TOTAL - s.kmLeft) / KM_TOTAL * ((KM_TOTAL - s.kmLeft) / KM_TOTAL) *
        (3 - 2 * ((KM_TOTAL - s.kmLeft) / KM_TOTAL)) := by
      apply mul_nonneg (mul_nonneg hp0 hp0)
      linarith
    linarith
  have hdts : 0 ≤ dtms / 1000 := by positivity
  have hdec : s.kmLeft - kmPerSecOf s.kmLeft * (dtms / 1000) ≤ s.kmLeft := by
    have := mul_nonneg hks hdts
    linarith
  constructor
  · refine (div_le_div_iff_of_pos_right hTot).mpr ?_
    split_ifs with hz
    · linarith
    · linarith
  · intro hvic
    rw [decide_eq_true_iff] at hvic
    rw [if_pos hvic]
    refine ⟨rfl, ?_⟩
    rw [sub_zero, div_self (ne_of_gt hTot)]

/-- C9, witness: the theorem applied at the initial state with a 0ms frame. -/
theorem C9_progress_w :
    (KM_TOTAL - initState.kmLeft) / KM_TOTAL ≤
      (KM_TOTAL - (tick initState 0 (fun _ => 0)).kmLeft) / KM_TOTAL :=
  (C9_progress initState 0 (fun _ => 0) rfl rfl le_rfl
    (by norm_num [initState, KM_TOTAL]) (by norm_num [initState, KM_TOTAL])).1

/-- C10: a frame grows the store by at most one obstacle however large the
elapsed time is, and in an Active frame the spawn timer either fires — being
reset to exactly 0, discarding any overshoot past the interval — or advances
by exactly the raw elapsed milliseconds. -/
theorem C10_single_spawn (s : GameState) (dtms : ℚ) (ρ : ℕ → ℕ) :
    (tick s dtms ρ).obs.length ≤ s.obs.length + 1 ∧
    (s.gameOver = false → s.victory = false →
      (spawnMsOf (s.difficulty + (45/100000) * dtms) ≤ s.spawnTimer + dtms →
        (tick s dtms ρ).spawnTimer = 0) ∧
      (¬ spawnMsOf (s.difficulty + (45/100000) * dtms) ≤ s.spawnTimer + dtms →
        (tick s dtms ρ).spawnTimer = s.spawnTimer + dtms)) := by
  constructor
  · cases hg : s.gameOver
    · cases hv : s.victory
      · rw [tick_active_eq s dtms ρ hg hv, tickActive_obs]
        refine le_trans (moveCull_length_le _) ?_
        split_ifs with hf
        · exact addObstacle_length_le _ _ _
        · omega
      · rw [tick_frozen s dtms ρ (Or.inr hv)]
        omega
    · rw [tick_frozen s dtms ρ (Or.inl hg)]
      omega
  · intro hg hv
    rw [tick_active_eq s dtms ρ hg hv, tickActive_spawnTimer]
    constructor
    · intro hf
      rw [if_pos hf]
    · intro hf
      rw [if_neg hf]

/-- C10, witness: at the initial state with a 0ms frame the timer does not
fire and advances by the elapsed 0ms. -/
theorem C10_single_spawn_w :
    (tick initState 0 (fun _ => 0)).spawnTimer = initState.spawnTimer + 0 :=
  ((C10_single_spawn initState 0 (fun _ => 0)).2 rfl rfl).2
    (by norm_num [initState, spawnMsOf])

end MiniFlight
